import Mathlib

set_option maxHeartbeats 1000000

/- Verification development for the viper compiler front-end
   (src/viper/parser.py).  The Python source is shallowly embedded below:
   pure functions become Lean functions, raised exceptions become values of
   an error type, Python ints become Lean Int/Nat, and the per-function
   Context object is threaded explicitly.  Recursive tree walks take an
   explicit fuel argument (structural on the fuel) so that every definition
   evaluates inside the kernel; running out of fuel yields the generic
   error value, which corresponds to no behaviour of the Python source and
   is excluded by the fuel bounds used in the theorems.

   The modules types.py and opcodes.py are imported by parser.py but are
   not part of the sources under study; definitions taken from them are
   either parameterized (the opcode registry, parse_type, canonicalize_type,
   is_varname_valid, the keccak hash) or modelled from the specification
   and marked as such in their doc comments. -/

/-- Error kinds raised by the translator: the exception classes of
parser.py / types.py, with generic Exception mapped to otherE. -/
inductive Err where
  | invalidType
  | typeMismatch
  | variableDecl
  | structureE
  | constancy
  | otherE
deriving DecidableEq

/-- A unit dictionary: mapping from unit name to signed exponent
(Python dict modelled as an association list). -/
abbrev UnitMap := List (String × Int)

/-- Lookup in a unit dictionary. -/
def ulookup (u : UnitMap) (k : String) : Option Int :=
  (u.find? (fun p => p.1 == k)).map (fun p => p.2)

/-- Python dict equality for unit maps (key-order insensitive; unit maps
have no duplicate keys). -/
def umap_eq (a b : UnitMap) : Bool :=
  a.all (fun p => ulookup b p.1 == some p.2) &&
    b.all (fun p => ulookup a p.1 == some p.2)

/-- Equality of optional unit dictionaries: Python None equals only None;
a dict equals a dict with the same key/exponent pairs. -/
def unit_eq (a b : Option UnitMap) : Bool :=
  match a, b with
  | none, none => true
  | some x, some y => umap_eq x y
  | _, _ => false

/-- Python truthiness of a unit field: None and the empty dict are falsy. -/
def unit_truthy : Option UnitMap → Bool
  | none => false
  | some u => !u.isEmpty

/-- Python expression u1 or u2 on unit fields. -/
def py_or_unit (a b : Option UnitMap) : Option UnitMap :=
  if unit_truthy a then a else b

/-- Source-language types (the NodeType hierarchy of types.py, whose shape
is fixed by the spec data model and by how parser.py consumes it). -/
inductive Ty where
  | base (kind : String) (unit : Option UnitMap) (positional : Bool)
  | list (sub : Ty) (count : Nat)
  | mapping (keytype : Ty) (valuetype : Ty)
  | struct (members : List (String × Ty))
  | bytearray (maxlen : Nat)
  | mixed
  | nullT

/-- Values stored in an LLL node: an integer, a symbolic string, or
Python None (used with NullType). -/
inductive LVal where
  | num (n : Int)
  | str (s : String)
  | nullv
deriving DecidableEq

/-- Data locations. -/
inductive Loc where
  | storage
  | memory
  | calldata
deriving DecidableEq

/-- The LLL parse-tree node (class LLLnode): value, ordered children,
optional type, optional location.  The derived valency is computed
separately by buildValency below, mirroring LLLnode.__init__. -/
inductive LNode where
  | mk (value : LVal) (args : List LNode) (typ : Option Ty) (location : Option Loc)

def LNode.value : LNode → LVal
  | .mk v _ _ _ => v

def LNode.args : LNode → List LNode
  | .mk _ a _ _ => a

def LNode.typ : LNode → Option Ty
  | .mk _ _ t _ => t

def LNode.location : LNode → Option Loc
  | .mk _ _ _ l => l

/-- Shorthand for a bare symbolic node (from_list of a string). -/
def Ls (s : String) : LNode := .mk (.str s) [] none none

/-- Shorthand for a bare integer node (from_list of an int). -/
def Ln (n : Int) : LNode := .mk (.num n) [] none none

/-- Shorthand for an untyped interior node. -/
def Lx (s : String) (args : List LNode) : LNode := .mk (.str s) args none none

/-- A decimal value stores multiples of 1/DECIMAL_DIVISOR (parser.py). -/
def DECIMAL_DIVISOR : Int := 10000000000

def RESERVED_MEMORY : Nat := 256
def ADDRSIZE_POS : Nat := 32
def MAXNUM_POS : Nat := 64
def MINNUM_POS : Nat := 96
def MAXDECIMAL_POS : Nat := 128
def MINDECIMAL_POS : Nat := 160

/-- Structural mapM over Option, used instead of the library mapM so that
all proofs are by plain induction. -/
def mapO (f : α → Option β) : List α → Option (List β)
  | [] => some []
  | a :: rest =>
    match f a, mapO f rest with
    | some b, some bs => some (b :: bs)
    | _, _ => none

/-- Structural mapM over Except Err. -/
def mapE (f : α → Except Err β) : List α → Except Err (List β)
  | [] => .ok []
  | a :: rest =>
    match f a with
    | .error e => .error e
    | .ok b =>
      match mapE f rest with
      | .error e => .error e
      | .ok bs => .ok (b :: bs)

/-- Embedding of fourbytes_to_int (parser.py lines 32-33): interprets the
first four list entries as a big-endian integer via shifts; fewer than
four bytes is a Python IndexError, modelled as none. -/
def fourbytes_to_int : List Nat → Option Nat
  | b0 :: b1 :: b2 :: b3 :: _ => some ((b0 <<< 24) + (b1 <<< 16) + (b2 <<< 8) + b3)
  | _ => none

/-- A function-definition parameter as seen by get_func_details: a name
and an optional type annotation.  The annotation AST is kept abstract
(type alpha) because parse_type / canonicalize_type live in the missing
types.py; they are passed in as functions. -/
structure AstArg (α : Type) where
  arg : String
  ann : Option α

/-- Embedding of the argument loop of get_func_details (parser.py lines
200-214): validates each parameter and assigns its data-location offset;
total is len(code.args.args) and acc.length is len(args) at each step. -/
def func_args_loop (valid : String → Bool) (parse_type : α → Except Err Ty)
    (name : String) (total : Nat) :
    List (AstArg α) → List (String × Int × Ty) → Except Err (List (String × Int × Ty))
  | [], acc => .ok acc
  | a :: rest, acc =>
    match a.ann with
    | none => .error .invalidType
    | some ann0 =>
      if !(valid a.arg) then .error .variableDecl
      else if acc.any (fun p => p.1 == a.arg) then .error .variableDecl
      else
        match parse_type ann0 with
        | .error e => .error e
        | .ok t =>
          let off : Int :=
            if name == "__init__" then -32 * (total : Int) + 32 * (acc.length : Int)
            else 4 + 32 * (acc.length : Int)
          func_args_loop valid parse_type name total rest (acc ++ [(a.arg, off, t)])

/-- Canonical ABI string of one parameter's annotation, mirroring
canonicalize_type(parse_type(arg.annotation, None)) at parser.py line 241. -/
def canon_of_arg (parse_type : α → Except Err Ty) (canonicalize_type : Ty → String)
    (a : AstArg α) : Except Err String :=
  match a.ann with
  | none => .error .invalidType
  | some ann0 =>
    match parse_type ann0 with
    | .error e => .error e
    | .ok t => .ok (canonicalize_type t)

/-- Embedding of get_func_details (parser.py lines 197-243) restricted to
the parts the claims are about: the argument list with offsets, the
signature string, and the 4-byte method id.  The return-type/constancy
analysis of lines 216-239 is independent of these outputs and elided.
The keccak collaborator is a parameter returning the digest bytes. -/
def get_func_details (valid : String → Bool) (parse_type : α → Except Err Ty)
    (canonicalize_type : Ty → String) (keccak : String → List Nat)
    (name : String) (astargs : List (AstArg α)) :
    Except Err (List (String × Int × Ty) × String × Nat) :=
  match func_args_loop valid parse_type name astargs.length astargs [] with
  | .error e => .error e
  | .ok args =>
    match mapE (canon_of_arg parse_type canonicalize_type) astargs with
    | .error e => .error e
    | .ok canons =>
      let sig := name ++ "(" ++ String.intercalate "," canons ++ ")"
      match fourbytes_to_int ((keccak sig).take 4) with
      | none => .error .otherE
      | some mid => .ok (args, sig, mid)

/-- Embedding of LLLnode.__init__ valency computation and structural
validation (parser.py lines 46-117), applied recursively to a whole raw
tree as LLLnode.from_list does.  reg v models the combined
lookup opcodes.get(v.upper(), pseudo_opcodes.get(v.upper(), None)) into
the registries of opcodes.py (out of scope there), returning
(arity, valency); the uppercasing is part of the modelled lookup.  A raised
exception (including IndexError on too few arguments) is none; fuel is
structural bookkeeping only. -/
def buildValency (reg : String → Option (Nat × Nat)) : Nat → LNode → Option Nat
  | 0, _ => none
  | fuel + 1, .mk v args typ _ =>
    match mapO (buildValency reg fuel) args with
    | none => none
    | some vals =>
      match v with
      | .num _ => some 1
      | .nullv =>
        match typ with
        | some .nullT => some 1
        | _ => none
      | .str s =>
        match reg s with
        | some (arity, val) =>
          if args.length == arity && vals.all (fun x => x != 0) then some val else none
        | none =>
          if s == "if" then
            match vals with
            | [t, a] => if a == 0 && t != 0 then some a else none
            | [t, a, b] => if a == b && t != 0 then some a else none
            | _ => none
          else if s == "with" then
            match args, vals with
            | [.mk v0 args0 _ _, _, _], [_, v1, v2] =>
              match v0 with
              | .str _ => if args0.length == 0 && v1 != 0 then some v2 else none
              | _ => none
            | _, _ => none
          else if s == "repeat" then
            match args, vals with
            | .mk _ _ _ _ :: _ :: .mk v2 args2 _ _ :: _ :: _, v0 :: v1 :: _ :: v3 :: _ =>
              match v2 with
              | .num n2 =>
                if args2.length == 0 && decide (0 < n2) && v0 != 0 && v1 != 0 && v3 == 0
                then some 0 else none
              | _ => none
            | _, _ => none
          else if s == "seq" then some (vals.getLastD 0)
          else if s == "multi" then
            if vals.all (fun x => x != 0) then some (vals.foldr (· + ·) 0) else none
          else some 1

/-- Helper: a successful run of the argument loop extends the accumulator
by one entry per parameter, and the entry at index k carries the offset
4 + 32k, or -32*total + 32k for the constructor. -/
theorem func_args_loop_spec {α : Type} (valid : String → Bool)
    (parse_type : α → Except Err Ty) (name : String) (total : Nat) :
    ∀ (l : List (AstArg α)) (acc res : List (String × Int × Ty)),
      func_args_loop valid parse_type name total l acc = .ok res →
      res.length = acc.length + l.length ∧
      (∀ k, k < acc.length → res[k]? = acc[k]?) ∧
      (∀ k, acc.length ≤ k → k < acc.length + l.length →
        (res[k]?).map (fun p => p.2.1) =
          some (if name == "__init__" then -32 * (total : Int) + 32 * (k : Int)
                else 4 + 32 * (k : Int))) := by
  intro l
  induction l with
  | nil =>
    intro acc res h
    simp only [func_args_loop] at h
    cases h
    refine ⟨by simp, fun k _ => rfl, fun k hk1 hk2 => ?_⟩
    simp only [List.length_nil, Nat.add_zero] at hk2
    omega
  | cons a rest ih =>
    intro acc res h
    simp only [func_args_loop] at h
    cases hann : a.ann with
    | none => rw [hann] at h; exact absurd h (by simp)
    | some ann0 =>
      rw [hann] at h
      by_cases hv : valid a.arg
      · rw [hv] at h
        simp only [Bool.not_true, Bool.false_eq_true, if_false] at h
        by_cases hdup : acc.any (fun p => p.1 == a.arg)
        · rw [hdup] at h; exact absurd h (by simp)
        · rw [Bool.eq_false_iff.mpr hdup] at h
          simp only [if_false, Bool.false_eq_true] at h
          cases hpt : parse_type ann0 with
          | error e => rw [hpt] at h; exact absurd h (by simp)
          | ok t =>
            rw [hpt] at h
            obtain ⟨hlen, hpre, hoff⟩ := ih (acc ++ [(a.arg,
              (if name == "__init__" then -32 * (total : Int) + 32 * (acc.length : Int)
               else 4 + 32 * (acc.length : Int)), t)]) res h
            simp only [List.length_append, List.length_cons, List.length_nil,
              Nat.zero_add] at hlen
            refine ⟨by simp only [List.length_cons]; omega, ?_, ?_⟩
            · intro k hk
              rw [hpre k (by simp only [List.length_append, List.length_cons,
                List.length_nil]; omega)]
              exact List.getElem?_append_left (by omega)
            · intro k hk1 hk2
              rcases Nat.eq_or_lt_of_le hk1 with heq | hlt
              · subst heq
                rw [hpre acc.length (by simp only [List.length_append,
                  List.length_cons, List.length_nil]; omega)]
                rw [List.getElem?_concat_length]
                simp
              · exact hoff k
                  (by simp only [List.length_append, List.length_cons,
                    List.length_nil]; omega)
                  (by simp only [List.length_append, List.length_cons,
                    List.length_nil] at hk2 ⊢; omega)
      · rw [Bool.eq_false_iff.mpr hv] at h
        exact absurd h (by simp)

/-- C8: get_func_details assigns the k-th parameter (0-based) the
data-location offset 4 + 32k for a regular function and -32*N + 32k for
__init__, where N is the total parameter count (parser.py 209-214). -/
theorem C8_arg_offsets {α : Type} (valid : String → Bool)
    (parse_type : α → Except Err Ty) (canonicalize_type : Ty → String)
    (keccak : String → List Nat) (name : String) (astargs : List (AstArg α))
    (r : List (String × Int × Ty) × String × Nat)
    (hok : get_func_details valid parse_type canonicalize_type keccak name astargs = .ok r) :
    r.1.length = astargs.length ∧
    ∀ k, k < astargs.length →
      (r.1[k]?).map (fun p => p.2.1) =
        some (if name == "__init__" then -32 * (astargs.length : Int) + 32 * (k : Int)
              else 4 + 32 * (k : Int)) := by
  simp only [get_func_details] at hok
  split at hok
  · exact absurd hok (by simp)
  · rename_i args hloop
    split at hok
    · exact absurd hok (by simp)
    · rename_i canons hcan
      split at hok
      · exact absurd hok (by simp)
      · rename_i mid hfb
        cases hok
        obtain ⟨hlen, _, hoff⟩ :=
          func_args_loop_spec valid parse_type name astargs.length astargs [] args hloop
        simp only [List.length_nil, Nat.zero_add] at hlen hoff
        exact ⟨hlen, fun k hk => hoff k (Nat.zero_le k) (by omega)⟩

def validC : String → Bool := fun s => s != ""

def ptNumC : Unit → Except Err Ty := fun _ => .ok (.base "num" none false)

def canIntC : Ty → String := fun _ => "int128"

def kecC : String → List Nat := fun _ => [18, 52, 86, 120, 9, 9]

def ctorArgsC : List (AstArg Unit) := [⟨"a", some ()⟩, ⟨"b", some ()⟩]

/-- Witness for C8: a two-parameter __init__ gets offsets -64 and -32. -/
theorem C8_arg_offsets_witness :
    ∃ r, get_func_details validC ptNumC canIntC kecC "__init__" ctorArgsC = .ok r ∧
      (r.1[0]?).map (fun p => p.2.1) = some (-64) ∧
      (r.1[1]?).map (fun p => p.2.1) = some (-32) := by
  have h := C8_arg_offsets validC ptNumC canIntC kecC "__init__" ctorArgsC
    ([("a", -64, .base "num" none false), ("b", -32, .base "num" none false)],
      "__init__(int128,int128)", 305419896) (by rfl)
  refine ⟨([("a", -64, .base "num" none false), ("b", -32, .base "num" none false)],
    "__init__(int128,int128)", 305419896), by rfl, ?_, ?_⟩
  · exact (h.2 0 (by decide)).trans (by decide)
  · exact (h.2 1 (by decide)).trans (by decide)

/-- C1: on success, get_func_details builds the signature as
name ++ "(" ++ comma-joined canonical parameter types ++ ")" and the
selector as the big-endian value b0*2^24 + b1*2^16 + b2*2^8 + b3 of the
first four keccak digest bytes of the signature (parser.py 241-242, 32-33). -/
theorem C1_signature_selector {α : Type} (valid : String → Bool)
    (parse_type : α → Except Err Ty) (canonicalize_type : Ty → String)
    (keccak : String → List Nat) (name : String) (astargs : List (AstArg α))
    (args : List (String × Int × Ty)) (canons : List String)
    (b0 b1 b2 b3 : Nat) (rest : List Nat)
    (hargs : func_args_loop valid parse_type name astargs.length astargs [] = .ok args)
    (hcanons : mapE (canon_of_arg parse_type canonicalize_type) astargs = .ok canons)
    (hk : keccak (name ++ "(" ++ String.intercalate "," canons ++ ")") =
      b0 :: b1 :: b2 :: b3 :: rest) :
    get_func_details valid parse_type canonicalize_type keccak name astargs =
      .ok (args, name ++ "(" ++ String.intercalate "," canons ++ ")",
        b0 * 2 ^ 24 + b1 * 2 ^ 16 + b2 * 2 ^ 8 + b3) := by
  simp only [get_func_details, hargs, hcanons, hk]
  simp only [List.take, fourbytes_to_int]
  rw [Nat.shiftLeft_eq, Nat.shiftLeft_eq, Nat.shiftLeft_eq]

/-- Witness for C1: a concrete one-parameter function with a concrete
digest function. -/
theorem C1_signature_selector_witness :
    get_func_details validC ptNumC canIntC kecC "transfer" [(⟨"to", some ()⟩ : AstArg Unit)] =
      .ok ([("to", 4, .base "num" none false)], "transfer(int128)",
        18 * 2 ^ 24 + 52 * 2 ^ 16 + 86 * 2 ^ 8 + 120) := by
  exact C1_signature_selector validC ptNumC canIntC kecC "transfer"
    [⟨"to", some ()⟩] [("to", 4, .base "num" none false)] ["int128"]
    18 52 86 120 [9, 9] (by rfl) (by rfl) (by rfl)

/-- Helper: a successful mapO run gives a successful run on every element. -/
theorem mapO_some_forall (f : α → Option β) :
    ∀ (l : List α) (vals : List β), mapO f l = some vals →
      ∀ a ∈ l, ∃ b, f a = some b := by
  intro l
  induction l with
  | nil => intro vals _ a ha; exact absurd ha (by simp)
  | cons x rest ih =>
    intro vals h a ha
    simp only [mapO] at h
    cases hx : f x with
    | none => rw [hx] at h; exact absurd h (by simp)
    | some b =>
      rw [hx] at h
      cases hr : mapO f rest with
      | none => rw [hr] at h; exact absurd h (by simp)
      | some bs =>
        rcases List.mem_cons.mp ha with rfl | hmem
        · exact ⟨b, hx⟩
        · exact ih bs hr a hmem

/-- C2 (amended): for the LLLnode constructor applied through from_list,
(1) an opcode/pseudo-opcode node is accepted exactly when all children are
accepted, the argument count equals the registered arity and every
argument valency is nonzero, and its valency is the registered one;
(2) an 'if' node (when 'if' is not a registered opcode) is accepted
exactly when it has a nonzero-valent test plus either one zero-valent
body or two branches of equal valency, its valency being the branch
valency; (3) every argument of an accepted node is itself accepted, so
an accepted tree satisfies these invariants at every node
(parser.py lines 46-117). -/
theorem C2_valency_checks (reg : String → Option (Nat × Nat)) (fuel : Nat) :
    (∀ (s : String) (ar vl : Nat) (args : List LNode) (typ : Option Ty)
        (loc : Option Loc) (w : Nat),
      reg s = some (ar, vl) →
      (buildValency reg (fuel + 1) (.mk (.str s) args typ loc) = some w ↔
        ∃ vals, mapO (buildValency reg fuel) args = some vals ∧
          args.length = ar ∧ (∀ v ∈ vals, v ≠ 0) ∧ w = vl)) ∧
    (∀ (args : List LNode) (typ : Option Ty) (loc : Option Loc) (w : Nat),
      reg "if" = none →
      (buildValency reg (fuel + 1) (.mk (.str "if") args typ loc) = some w ↔
        ∃ vals, mapO (buildValency reg fuel) args = some vals ∧
          ((∃ t a, vals = [t, a] ∧ t ≠ 0 ∧ a = 0 ∧ w = 0) ∨
           (∃ t a b, vals = [t, a, b] ∧ t ≠ 0 ∧ a = b ∧ w = a)))) ∧
    (∀ (v : LVal) (args : List LNode) (typ : Option Ty) (loc : Option Loc) (w : Nat),
      buildValency reg (fuel + 1) (.mk v args typ loc) = some w →
      ∀ a ∈ args, ∃ va, buildValency reg fuel a = some va) := by
  refine ⟨?_, ?_, ?_⟩
  · intro s ar vl args typ loc w hreg
    constructor
    · intro h
      simp only [buildValency] at h
      cases hm : mapO (buildValency reg fuel) args with
      | none => rw [hm] at h; exact absurd h (by simp)
      | some vals =>
        rw [hm, hreg] at h
        change (if (args.length == ar && vals.all fun x => x != 0) = true
          then some vl else none) = some w at h
        by_cases hc : (args.length == ar && vals.all fun x => x != 0) = true
        · rw [if_pos hc] at h
          cases h
          simp only [Bool.and_eq_true, beq_iff_eq, List.all_eq_true, bne_iff_ne] at hc
          exact ⟨vals, rfl, hc.1, fun v hv => hc.2 v hv, rfl⟩
        · rw [if_neg hc] at h
          exact absurd h (by simp)
    · rintro ⟨vals, hm, hlen, hall, rfl⟩
      simp only [buildValency, hm, hreg]
      have hcnd : (args.length == ar && vals.all fun x => x != 0) = true := by
        simp only [Bool.and_eq_true, beq_iff_eq, List.all_eq_true, bne_iff_ne]
        exact ⟨hlen, fun v hv => hall v hv⟩
      show (if (args.length == ar && vals.all fun x => x != 0) = true
        then some w else none) = some w
      rw [if_pos hcnd]
  · intro args typ loc w hif
    constructor
    · intro h
      simp only [buildValency] at h
      cases hm : mapO (buildValency reg fuel) args with
      | none => rw [hm] at h; exact absurd h (by simp)
      | some vals =>
        rw [hm, hif] at h
        refine ⟨vals, rfl, ?_⟩
        match vals with
        | [] => exact absurd h (by simp)
        | [t] => exact absurd h (by simp)
        | [t, a] =>
          change (if (a == 0 && t != 0) = true then some a else none) = some w at h
          by_cases hc : (a == 0 && t != 0) = true
          · rw [if_pos hc] at h
            cases h
            simp only [Bool.and_eq_true, beq_iff_eq, bne_iff_ne] at hc
            exact Or.inl ⟨t, w, rfl, hc.2, hc.1, hc.1⟩
          · rw [if_neg hc] at h
            exact absurd h (by simp)
        | [t, a, b] =>
          change (if (a == b && t != 0) = true then some a else none) = some w at h
          by_cases hc : (a == b && t != 0) = true
          · rw [if_pos hc] at h
            cases h
            simp only [Bool.and_eq_true, beq_iff_eq, bne_iff_ne] at hc
            exact Or.inr ⟨t, w, b, rfl, hc.2, hc.1, rfl⟩
          · rw [if_neg hc] at h
            exact absurd h (by simp)
        | t :: a :: b :: c :: rest => exact absurd h (by simp)
    · rintro ⟨vals, hm, hcase⟩
      simp only [buildValency, hm, hif]
      rcases hcase with ⟨t, a, rfl, ht, ha, rfl⟩ | ⟨t, a, b, rfl, ht, hab, rfl⟩
      · subst ha
        have hcnd : ((0 : Nat) == 0 && t != 0) = true := by simp [ht]
        show (if ((0 : Nat) == 0 && t != 0) = true then some (0 : Nat) else none) = some 0
        rw [if_pos hcnd]
      · have hcnd : (w == b && t != 0) = true := by simp [hab, ht]
        show (if (w == b && t != 0) = true then some w else none) = some w
        rw [if_pos hcnd]
  · intro v args typ loc w h a ha
    simp only [buildValency] at h
    cases hm : mapO (buildValency reg fuel) args with
    | none => rw [hm] at h; exact absurd h (by simp)
    | some vals => exact mapO_some_forall (buildValency reg fuel) args vals hm a ha

def regC2 : String → Option (Nat × Nat) := fun s => if s == "assert" then some (1, 0) else none

/-- Counterexample for C2 as stated: with assert registered as a
pseudo-opcode of arity 1 and valency 0, the node assert(multi(1, 2)) is
accepted by the constructor although its argument multi(1, 2) has
valency 2, not 1 - the constructor only rejects zero-valent opcode
arguments (parser.py lines 66-68). -/
theorem C2_counterexample :
    buildValency regC2 3
      (.mk (.str "assert") [.mk (.str "multi") [Ln 1, Ln 2] none none] none none) = some 0 ∧
    buildValency regC2 2 (.mk (.str "multi") [Ln 1, Ln 2] none none) = some 2 :=
  ⟨by rfl, by rfl⟩

/-- Witness for C2: the amended characterization applied to a concrete
accepted opcode node. -/
theorem C2_valency_checks_witness :
    buildValency regC2 2 (.mk (.str "assert") [Ln 5] none none) = some 0 := by
  have h := (C2_valency_checks regC2 1).1 "assert" 1 0 [Ln 5] none none 0 (by rfl)
  exact h.mpr ⟨[1], by rfl, by rfl, by decide, rfl⟩

/-- Modelled from the spec (4.A): is_base_type from the missing types.py -
a base type whose kind is among the given kinds. -/
def is_base_ty : Ty → List String → Bool
  | .base k _ _, kinds => kinds.contains k
  | _, _ => false

/-- is_base_type lifted to the optional typ field of a node. -/
def is_base_typeO : Option Ty → List String → Bool
  | some t, kinds => is_base_ty t kinds
  | none, _ => false

/-- Modelled from the spec (4.A, 4.F): is_numeric_type from the missing
types.py - a base type of kind num or decimal. -/
def is_numeric_type : Option Ty → Bool
  | some (.base k _ _) => k == "num" || k == "decimal"
  | _ => false

/-- Modelled from the spec (4.A): combine_units from the missing types.py:
adds exponents per unit name (subtracts when div), empties are identity,
and an all-zero result collapses to absent. -/
def combine_units (a b : Option UnitMap) (div : Bool) : Option UnitMap :=
  let la := a.getD []
  let lb := b.getD []
  let keys := (la.map Prod.fst ++ lb.map Prod.fst).dedup
  let entries := keys.filterMap (fun k =>
    let e : Int := (ulookup la k).getD 0 +
      (if div then -((ulookup lb k).getD 0) else (ulookup lb k).getD 0)
    if e == 0 then none else some (k, e))
  if entries.isEmpty then none else some entries

/-- Modelled from the spec (4.A): are_units_compatible from the missing
types.py - true iff the source unit is absent or equals the target unit. -/
def are_units_compatible (su du : Option UnitMap) : Bool :=
  match su with
  | none => true
  | some _ => unit_eq su du

/-- Modelled from the spec (4.A, 4.G): set_default_units from the missing
types.py - an absent unit becomes the empty unit dictionary. -/
def set_default_units : Ty → Ty
  | .base k none p => .base k (some []) p
  | .base k (some u) p => .base k (some u) p
  | .list s c => .list (set_default_units s) c
  | t => t

/-- Modelled from the spec (4.A): get_size_of_type from the missing
types.py - word counts: base = 1, list = count * subtype size, struct =
sum of member sizes; the remaining kinds have no size here.  Fuel is
structural bookkeeping only. -/
def get_size_of_type : Nat → Ty → Option Nat
  | 0, _ => none
  | _ + 1, .base _ _ _ => some 1
  | f + 1, .list s c =>
    match get_size_of_type f s with
    | some n => some (c * n)
    | none => none
  | f + 1, .struct ms =>
    match mapO (fun p => get_size_of_type f p.2) ms with
    | some ns => some (ns.foldr (· + ·) 0)
    | none => none
  | _ + 1, _ => none

/-- Embedding of unwrap_location (parser.py lines 694-702). -/
def unwrap_location (orig : LNode) : LNode :=
  match orig.location with
  | some .memory => .mk (.str "mload") [orig] orig.typ none
  | some .storage => .mk (.str "sload") [orig] orig.typ none
  | some .calldata => .mk (.str "calldataload") [orig] orig.typ none
  | none => orig

/-- Embedding of base_type_conversion (parser.py lines 716-729). -/
def base_type_conversion (orig0 : LNode) (frm : Option Ty) (toT : Ty) : Except Err LNode :=
  let orig := unwrap_location orig0
  match frm, toT with
  | some (.base fk fu fp), .base tk tu tp =>
    if is_base_ty (.base fk fu fp) [tk] && are_units_compatible fu tu then
      .ok (.mk orig.value orig.args (some (.base tk tu tp)) none)
    else if fk == "num" && tk == "decimal" && are_units_compatible fu tu then
      .ok (.mk (.str "mul") [orig, Ln DECIMAL_DIVISOR] (some (.base "decimal" tu tp)) none)
    else .error .typeMismatch
  | some .nullT, .base tk tu tp =>
    if tk == "num" || tk == "bool" || tk == "num256" || tk == "address" ||
        tk == "bytes32" || tk == "decimal" then
      .ok (.mk (.num 0) [] (some (.base tk tu tp)) none)
    else .error .typeMismatch
  | _, _ => .error .typeMismatch

/-- Member-variable lookup in a struct's member table. -/
def member_lookup (ms : List (String × Ty)) (k : String) : Option Ty :=
  (ms.find? (fun p => p.1 == k)).map (fun p => p.2)

/-- Word size of one struct member, for the memory-offset sum of
add_variable_offset. -/
def member_size_of (szfuel : Nat) (ms : List (String × Ty)) (a : String) : Option Nat :=
  match member_lookup ms a with
  | some t => get_size_of_type szfuel t
  | none => none

/-- Insertion into a sorted list of strings (ascending). -/
def insertSorted (x : String) : List String → List String
  | [] => [x]
  | y :: rest => if x ≤ y then x :: y :: rest else y :: insertSorted x rest

/-- Python sorted() on the member names of a struct. -/
def sorted_keys (ms : List (String × Ty)) : List String :=
  (ms.map Prod.fst).foldr insertSorted []

/-- A key passed to add_variable_offset: a member name (string) or an
index expression (LLL node), matching the two call shapes in parser.py. -/
inductive AKey where
  | strK (s : String)
  | nodeK (n : LNode)

/-- Embedding of add_variable_offset (parser.py lines 332-379).  A string
key on a list or mapping hits key.typ on a str in Python (AttributeError),
modelled as otherE. -/
def add_variable_offset (szfuel : Nat) (parent : LNode) (key : AKey) : Except Err LNode :=
  match parent.typ with
  | some (.struct ms) =>
    match key with
    | .strK k =>
      match member_lookup ms k with
      | none => .error .typeMismatch
      | some subty =>
        let attrs := sorted_keys ms
        let index := attrs.indexOf k
        match parent.location with
        | some .storage =>
          .ok (.mk (.str "add") [.mk (.str "sha3_32") [parent] none none, Ln index]
                (some subty) (some .storage))
        | some .memory =>
          match mapO (member_size_of szfuel ms) (attrs.take index) with
          | none => .error .otherE
          | some sizes =>
            .ok (.mk (.str "add") [Ln (32 * (sizes.foldr (· + ·) 0 : Nat)), parent]
                  (some subty) (some .memory))
        | _ => .error .typeMismatch
    | .nodeK _ => .error .typeMismatch
  | some (.list subty cnt) =>
    match key with
    | .nodeK knode =>
      match base_type_conversion knode knode.typ (.base "num" none false) with
      | .error e => .error e
      | .ok conv =>
        let subc := LNode.mk (.str "uclamplt") [conv, Ln cnt] none none
        match parent.location with
        | some .storage =>
          .ok (.mk (.str "add") [.mk (.str "sha3_32") [parent] none none, subc]
                (some subty) (some .storage))
        | some .memory =>
          match get_size_of_type szfuel subty with
          | none => .error .otherE
          | some sz =>
            .ok (.mk (.str "add") [.mk (.str "mul") [Ln (32 * (sz : Int)), subc] none none, parent]
                  (some subty) (some .memory))
        | _ => .error .typeMismatch
    | .strK _ => .error .otherE
  | some (.mapping keyty valty) =>
    match key with
    | .nodeK knode =>
      match base_type_conversion knode knode.typ keyty with
      | .error e => .error e
      | .ok conv =>
        match parent.location with
        | some .storage =>
          .ok (.mk (.str "add") [.mk (.str "sha3_32") [parent] none none, conv]
                (some valty) (some .storage))
        | some .memory => .error .typeMismatch
        | _ => .error .typeMismatch
    | .strK _ => .error .otherE
  | _ => .error .typeMismatch

/-- The arithmetic binary operators of parse_expr. -/
inductive BOp where
  | add
  | sub
  | mult
  | div
  | mod
deriving DecidableEq

/-- Embedding of the BinOp arm of parse_expr (parser.py lines 495-565),
taking the already-parsed operand values (parse_value_expr results). -/
def parseArith (op : BOp) (left right : LNode) : Except Err LNode :=
  if !(is_numeric_type left.typ) || !(is_numeric_type right.typ) then .error .typeMismatch
  else
    match left.typ, right.typ with
    | some (.base lt lu lp), some (.base rt ru rp) =>
      match op with
      | .add | .sub =>
        if !(unit_eq lu ru) && !lu.isNone && !ru.isNone then .error .typeMismatch
        else if lp && rp && (op == .add) then .error .typeMismatch
        else
          let new_unit := py_or_unit lu ru
          let new_pos := Bool.xor lp rp
          let ops := if op == .add then "add" else "sub"
          if lt == rt then
            .ok (.mk (.str ops) [left, right] (some (.base lt new_unit new_pos)) none)
          else if lt == "num" && rt == "decimal" then
            .ok (.mk (.str ops) [Lx "mul" [left, Ln DECIMAL_DIVISOR], right]
                  (some (.base "decimal" new_unit new_pos)) none)
          else if lt == "decimal" && rt == "num" then
            .ok (.mk (.str ops) [left, Lx "mul" [right, Ln DECIMAL_DIVISOR]]
                  (some (.base "decimal" new_unit new_pos)) none)
          else .error .otherE
      | .mult =>
        if lp || rp then .error .typeMismatch
        else
          let new_unit := combine_units lu ru false
          if lt == "num" && rt == "num" then
            .ok (.mk (.str "mul") [left, right] (some (.base "num" new_unit false)) none)
          else if lt == "decimal" && rt == "decimal" then
            .ok (.mk (.str "with") [Ls "r", right, Lx "with" [Ls "l", left,
                  Lx "with" [Ls "ans", Lx "mul" [Ls "l", Ls "r"],
                    Lx "seq" [Lx "assert" [Lx "or" [Lx "eq" [Lx "sdiv" [Ls "ans", Ls "l"], Ls "r"],
                        Lx "not" [Ls "l"]]],
                      Lx "sdiv" [Ls "ans", Ln DECIMAL_DIVISOR]]]]]
                  (some (.base "decimal" new_unit false)) none)
          else if (lt == "num" && rt == "decimal") || (lt == "decimal" && rt == "num") then
            .ok (.mk (.str "with") [Ls "r", right, Lx "with" [Ls "l", left,
                  Lx "with" [Ls "ans", Lx "mul" [Ls "l", Ls "r"],
                    Lx "seq" [Lx "assert" [Lx "or" [Lx "eq" [Lx "sdiv" [Ls "ans", Ls "l"], Ls "r"],
                        Lx "not" [Ls "l"]]],
                      Ls "ans"]]]]
                  (some (.base "decimal" new_unit false)) none)
          else .error .otherE
      | .div =>
        if lp || rp then .error .typeMismatch
        else
          let new_unit := combine_units lu ru true
          if rt == "num" then
            .ok (.mk (.str "sdiv") [left, Lx "clamp_nonzero" [right]]
                  (some (.base lt new_unit false)) none)
          else if lt == "decimal" && rt == "decimal" then
            .ok (.mk (.str "with") [Ls "l", left, Lx "with" [Ls "r", Lx "clamp_nonzero" [right],
                  Lx "sdiv" [Lx "mul" [Ls "l", Ln DECIMAL_DIVISOR], Ls "r"]]]
                  (some (.base "decimal" new_unit false)) none)
          else if lt == "num" && rt == "decimal" then
            .ok (.mk (.str "sdiv") [Lx "mul" [left, Ln (DECIMAL_DIVISOR ^ 2)],
                  Lx "clamp_nonzero" [right]]
                  (some (.base "decimal" new_unit false)) none)
          else .error .otherE
      | .mod =>
        if lp || rp then .error .typeMismatch
        else if !(unit_eq lu ru) && !lu.isNone && !ru.isNone then .error .typeMismatch
        else
          let new_unit := py_or_unit lu ru
          if lt == rt then
            .ok (.mk (.str "smod") [left, Lx "clamp_nonzero" [right]]
                  (some (.base lt new_unit false)) none)
          else if lt == "decimal" && rt == "num" then
            .ok (.mk (.str "smod") [left, Lx "mul" [Lx "clamp_nonzero" [right], Ln DECIMAL_DIVISOR]]
                  (some (.base "decimal" new_unit false)) none)
          else if lt == "num" && rt == "decimal" then
            .ok (.mk (.str "smod") [Lx "mul" [left, Ln DECIMAL_DIVISOR], right]
                  (some (.base "decimal" new_unit false)) none)
          else .error .otherE
    | _, _ => .error .otherE

/-- C3: for a multiplication with at least one decimal operand (both
operands numeric, neither positional), the Mult arm of parse_expr
(parser.py lines 519-536) yields the guarded pattern binding r, l and
ans = mul(l, r), asserting (sdiv(ans, l) == r) or iszero(l) before the
result, which is sdiv(ans, 10^10) for decimal*decimal and the unscaled
ans for a mixed num/decimal product; the node's type is decimal with the
operands' units combined. -/
theorem C3_decimal_mul_guard (left right : LNode) (lt rt : String) (lu ru : Option UnitMap)
    (hl : left.typ = some (.base lt lu false)) (hr : right.typ = some (.base rt ru false))
    (hlt : lt = "num" ∨ lt = "decimal") (hrt : rt = "num" ∨ rt = "decimal")
    (hdec : lt = "decimal" ∨ rt = "decimal") :
    parseArith .mult left right =
      .ok (.mk (.str "with") [Ls "r", right, Lx "with" [Ls "l", left,
            Lx "with" [Ls "ans", Lx "mul" [Ls "l", Ls "r"],
              Lx "seq" [Lx "assert" [Lx "or" [Lx "eq" [Lx "sdiv" [Ls "ans", Ls "l"], Ls "r"],
                  Lx "not" [Ls "l"]]],
                (if lt = "decimal" ∧ rt = "decimal" then Lx "sdiv" [Ls "ans", Ln DECIMAL_DIVISOR]
                 else Ls "ans")]]]]
          (some (.base "decimal" (combine_units lu ru false) false)) none) := by
  rcases hlt with rfl | rfl <;> rcases hrt with rfl | rfl
  · exact absurd hdec (by simp)
  · simp only [parseArith, hl, hr, is_numeric_type,
      show ((("num" : String) == "num")) = true from rfl,
      show ((("decimal" : String) == "num")) = false from rfl,
      show ((("decimal" : String) == "decimal")) = true from rfl,
      show ((("num" : String) == "decimal")) = false from rfl,
      Bool.true_or, Bool.or_true, Bool.false_or, Bool.or_false, Bool.not_true,
      Bool.false_or, Bool.false_and, Bool.true_and, Bool.and_false, Bool.and_true,
      Bool.or_self, Bool.false_eq_true, if_false, if_true]
    simp
  · simp only [parseArith, hl, hr, is_numeric_type,
      show ((("num" : String) == "num")) = true from rfl,
      show ((("decimal" : String) == "num")) = false from rfl,
      show ((("decimal" : String) == "decimal")) = true from rfl,
      show ((("num" : String) == "decimal")) = false from rfl,
      Bool.true_or, Bool.or_true, Bool.false_or, Bool.or_false, Bool.not_true,
      Bool.false_or, Bool.false_and, Bool.true_and, Bool.and_false, Bool.and_true,
      Bool.or_self, Bool.false_eq_true, if_false, if_true]
    simp
  · simp only [parseArith, hl, hr, is_numeric_type,
      show ((("num" : String) == "num")) = true from rfl,
      show ((("decimal" : String) == "num")) = false from rfl,
      show ((("decimal" : String) == "decimal")) = true from rfl,
      show ((("num" : String) == "decimal")) = false from rfl,
      Bool.true_or, Bool.or_true, Bool.false_or, Bool.or_false, Bool.not_true,
      Bool.false_or, Bool.false_and, Bool.true_and, Bool.and_false, Bool.and_true,
      Bool.or_self, Bool.false_eq_true, if_false, if_true]
    simp

def decLeftC : LNode := .mk (.num 25000000000) [] (some (.base "decimal" none false)) none

def decRightC : LNode := .mk (.num 40000000000) [] (some (.base "decimal" none false)) none

/-- Witness for C3: the guard emitted for a concrete decimal*decimal
product (2.5 * 4.0 as scaled literals). -/
theorem C3_decimal_mul_guard_witness :
    parseArith .mult decLeftC decRightC =
      .ok (.mk (.str "with") [Ls "r", decRightC, Lx "with" [Ls "l", decLeftC,
            Lx "with" [Ls "ans", Lx "mul" [Ls "l", Ls "r"],
              Lx "seq" [Lx "assert" [Lx "or" [Lx "eq" [Lx "sdiv" [Ls "ans", Ls "l"], Ls "r"],
                  Lx "not" [Ls "l"]]],
                Lx "sdiv" [Ls "ans", Ln DECIMAL_DIVISOR]]]]]
          (some (.base "decimal" none false)) none) := by
  have h := C3_decimal_mul_guard decLeftC decRightC "decimal" "decimal" none none
    rfl rfl (Or.inr rfl) (Or.inr rfl) (Or.inl rfl)
  exact h.trans (by rfl)

/-- C7: for addition/subtraction of numeric operands (parser.py 501-508):
two present but different unit dictionaries raise a type mismatch; two
positional operands under addition raise a type mismatch; otherwise the
result type's positional flag is the xor of the operands' flags and its
unit is the left unit when truthy (a non-empty dictionary), else the
right unit. -/
theorem C7_addsub_units (op : BOp) (left right : LNode) (lt rt : String)
    (lu ru : Option UnitMap) (lp rp : Bool)
    (hop : op = .add ∨ op = .sub)
    (hl : left.typ = some (.base lt lu lp)) (hr : right.typ = some (.base rt ru rp))
    (hlt : lt = "num" ∨ lt = "decimal") (hrt : rt = "num" ∨ rt = "decimal") :
    (unit_eq lu ru = false → lu ≠ none → ru ≠ none →
      parseArith op left right = .error .typeMismatch) ∧
    (lp = true → rp = true → op = .add →
      parseArith op left right = .error .typeMismatch) ∧
    (¬(unit_eq lu ru = false ∧ lu ≠ none ∧ ru ≠ none) →
      ¬(lp = true ∧ rp = true ∧ op = .add) →
      ∃ kind args, parseArith op left right =
        .ok (.mk (.str (if op = .add then "add" else "sub")) args
          (some (.base kind (if unit_truthy lu then lu else ru) (Bool.xor lp rp))) none)) := by
  have hnl : lu.isNone = false → lu ≠ none := by
    cases lu
    · intro h; exact absurd h (by simp)
    · intro _ h; exact absurd h (by simp)
  refine ⟨?_, ?_, ?_⟩
  · intro hu hl0 hr0
    have hlun : lu.isNone = false := by
      cases lu
      · exact absurd rfl hl0
      · rfl
    have hrun : ru.isNone = false := by
      cases ru
      · exact absurd rfl hr0
      · rfl
    rcases hop with rfl | rfl <;>
      rcases hlt with rfl | rfl <;> rcases hrt with rfl | rfl <;>
      simp [parseArith, hl, hr, is_numeric_type, hu, hlun, hrun]
  · intro hlp hrp hadd
    subst hadd
    subst hlp
    subst hrp
    rcases hlt with rfl | rfl <;> rcases hrt with rfl | rfl <;>
      by_cases hu : (!(unit_eq lu ru) && !lu.isNone && !ru.isNone) = true <;>
      simp [parseArith, hl, hr, is_numeric_type, hu]
  · intro hnu hnp
    have e1 : ((("num" : String) == "num")) = true := rfl
    have e2 : ((("decimal" : String) == "num")) = false := rfl
    have e3 : ((("decimal" : String) == "decimal")) = true := rfl
    have e4 : ((("num" : String) == "decimal")) = false := rfl
    have hc1 : unit_eq lu ru = false → lu.isSome = true → ru = none := by
      intro h1 h2
      by_contra h3
      refine hnu ⟨h1, ?_, h3⟩
      cases lu
      · simp at h2
      · simp
    rcases hop with rfl | rfl
    · have hc2 : ¬(lp = true ∧ rp = true) := fun hpq => hnp ⟨hpq.1, hpq.2, rfl⟩
      rcases hlt with rfl | rfl <;> rcases hrt with rfl | rfl
      · exact ⟨"num", [left, right],
          (by simp [parseArith, hl, hr, is_numeric_type, py_or_unit, e1, e2, e3, e4, hc2]; exact hc1)⟩
      · exact ⟨"decimal", [Lx "mul" [left, Ln DECIMAL_DIVISOR], right],
          (by simp [parseArith, hl, hr, is_numeric_type, py_or_unit, e1, e2, e3, e4, hc2]; exact hc1)⟩
      · exact ⟨"decimal", [left, Lx "mul" [right, Ln DECIMAL_DIVISOR]],
          (by simp [parseArith, hl, hr, is_numeric_type, py_or_unit, e1, e2, e3, e4, hc2]; exact hc1)⟩
      · exact ⟨"decimal", [left, right],
          (by simp [parseArith, hl, hr, is_numeric_type, py_or_unit, e1, e2, e3, e4, hc2]; exact hc1)⟩
    · rcases hlt with rfl | rfl <;> rcases hrt with rfl | rfl
      · exact ⟨"num", [left, right],
          (by simp [parseArith, hl, hr, is_numeric_type, py_or_unit, e1, e2, e3, e4]; exact hc1)⟩
      · exact ⟨"decimal", [Lx "mul" [left, Ln DECIMAL_DIVISOR], right],
          (by simp [parseArith, hl, hr, is_numeric_type, py_or_unit, e1, e2, e3, e4]; exact hc1)⟩
      · exact ⟨"decimal", [left, Lx "mul" [right, Ln DECIMAL_DIVISOR]],
          (by simp [parseArith, hl, hr, is_numeric_type, py_or_unit, e1, e2, e3, e4]; exact hc1)⟩
      · exact ⟨"decimal", [left, right],
          (by simp [parseArith, hl, hr, is_numeric_type, py_or_unit, e1, e2, e3, e4]; exact hc1)⟩

def weiLeftC : LNode := .mk (.num 1) [] (some (.base "num" (some [("wei", 1)]) false)) none

def secRightC : LNode := .mk (.num 2) [] (some (.base "num" (some [("sec", 1)]) false)) none

/-- Witness for C7: num(wei) + num(sec) is a type mismatch. -/
theorem C7_addsub_units_witness :
    parseArith .add weiLeftC secRightC = .error .typeMismatch := by
  have h := (C7_addsub_units .add weiLeftC secRightC "num" "num"
    (some [("wei", 1)]) (some [("sec", 1)]) false false (Or.inl rfl) rfl rfl
    (Or.inl rfl) (Or.inl rfl)).1
  exact h (by rfl) (by simp) (by simp)

/-- C9: for a subscript on a list-typed base of count n, add_variable_offset
converts the index to num and wraps it as uclamplt(index, n); the element
node is add(sha3_32(base), clamped) in storage and
add(mul(32 * element_size, clamped), base) in memory, typed with the
element type and located like the base (parser.py lines 358-377). -/
theorem C9_list_index (szfuel : Nat) (parent key : LNode) (subty : Ty) (cnt : Nat)
    (conv : LNode)
    (hp : parent.typ = some (.list subty cnt))
    (hconv : base_type_conversion key key.typ (.base "num" none false) = .ok conv) :
    (parent.location = some .storage →
      add_variable_offset szfuel parent (.nodeK key) =
        .ok (.mk (.str "add") [.mk (.str "sha3_32") [parent] none none,
              .mk (.str "uclamplt") [conv, Ln cnt] none none] (some subty) (some .storage))) ∧
    (∀ sz, parent.location = some .memory → get_size_of_type szfuel subty = some sz →
      add_variable_offset szfuel parent (.nodeK key) =
        .ok (.mk (.str "add") [.mk (.str "mul") [Ln (32 * (sz : Int)),
              .mk (.str "uclamplt") [conv, Ln cnt] none none] none none, parent]
              (some subty) (some .memory))) := by
  constructor
  · intro hloc
    simp only [add_variable_offset, hp, hconv, hloc]
  · intro sz hloc hsz
    simp only [add_variable_offset, hp, hconv, hloc, hsz]

def listParentC : LNode := .mk (.num 0) [] (some (.list (.base "num" none false) 10)) (some .storage)

def idxKeyC : LNode := .mk (.num 3) [] (some (.base "num" none false)) none

def convC : LNode := .mk (.num 3) [] (some (.base "num" none false)) none

/-- Witness for C9: indexing a storage num[10] with the literal 3. -/
theorem C9_list_index_witness :
    add_variable_offset 1 listParentC (.nodeK idxKeyC) =
      .ok (.mk (.str "add") [.mk (.str "sha3_32") [listParentC] none none,
            .mk (.str "uclamplt") [convC, Ln 10] none none]
            (some (.base "num" none false)) (some .storage)) := by
  exact (C9_list_index 1 listParentC idxKeyC (.base "num" none false) 10 convC
    rfl (by rfl)).1 rfl

/-- Source-expression AST shapes consumed by parse_expr that the claims
exercise (integer literals, names, attribute/subscript access, arithmetic
and the floor/decimal/as_number call forms, plus the True/False/None
constants); the remaining shapes (strings, comparisons, boolean ops,
unary ops, list/dict literals) are not needed by any claim. -/
inductive Expr where
  | num (n : Int)
  | name (s : String)
  | nameconst (v : Option Bool)
  | attribute (value : Expr) (attr : String)
  | subscript (value : Expr) (slice : Expr)
  | binop (op : BOp) (left : Expr) (right : Expr)
  | call (func : String) (args : List Expr)

/-- The per-function Context of parser.py lines 246-266, with the
_next_mem sentinel as an explicit cursor field (the spec notes this
modelling in 9). -/
structure Ctx where
  args : List (String × Int × Ty)
  vars : List (String × Nat × Ty)
  globals : List (String × Nat × Ty)
  return_type : Option Ty
  is_constant : Bool
  next_mem : Nat

/-- Dictionary lookup for the symbol tables. -/
def assoc_lookup {β : Type} (l : List (String × β)) (k : String) : Option β :=
  (l.find? (fun p => p.1 == k)).map (fun p => p.2)

/-- Embedding of Context.new_variable (parser.py lines 255-263). -/
def new_variable (valid : String → Bool) (szfuel : Nat) (ctx : Ctx) (name : String)
    (typ : Ty) : Except Err (Nat × Ctx) :=
  if !(valid name) then .error .variableDecl
  else if (assoc_lookup ctx.vars name).isSome || (assoc_lookup ctx.args name).isSome
      || (assoc_lookup ctx.globals name).isSome then .error .variableDecl
  else
    match get_size_of_type szfuel typ with
    | none => .error .otherE
    | some sz =>
      .ok (ctx.next_mem, Ctx.mk ctx.args (ctx.vars ++ [(name, ctx.next_mem, typ)])
        ctx.globals ctx.return_type ctx.is_constant (ctx.next_mem + 32 * sz))

/-- Embedding of the post-construction clamp of parse_expr (parser.py
lines 683-691).  The comparison o.typ == 'num' etc. goes through the
missing types.py; per the spec (4.F) it matches the base kind. -/
def clamp_epilogue (o : LNode) : LNode :=
  if o.location.isNone && is_base_typeO o.typ ["bool"] then o
  else if o.location.isNone && is_base_typeO o.typ ["num"] then
    .mk (.str "clamp") [Lx "mload" [Ln (MINNUM_POS : Int)], o, Lx "mload" [Ln (MAXNUM_POS : Int)]]
      (some (.base "num" none false)) none
  else if o.location.isNone && is_base_typeO o.typ ["decimal"] then
    .mk (.str "clamp") [Lx "mload" [Ln (MINDECIMAL_POS : Int)], o, Lx "mload" [Ln (MAXDECIMAL_POS : Int)]]
      (some (.base "decimal" none false)) none
  else o

/-- Embedding of parse_expr (parser.py lines 382-691) over the Expr
shapes above; parse_value_expr inlines as unwrap_location of the result
and parse_variable_location as the location check.  Fuel is structural
bookkeeping only; exhaustion yields otherE, which the theorems exclude
by choosing sufficient fuel. -/
def parseExpr : Nat → Ctx → Expr → Except Err LNode
  | 0, _, _ => .error .otherE
  | f + 1, ctx, ex =>
    match ex with
    | .num n =>
      if (-(2 : Int) ^ 127 + 1 ≤ n ∧ n ≤ 2 ^ 127 - 1) then
        .ok (.mk (.num n) [] (some (.base "num" none false)) none)
      else .error .otherE
    | .nameconst v =>
      match v with
      | some true => .ok (.mk (.num 1) [] (some (.base "bool" none false)) none)
      | some false => .ok (.mk (.num 0) [] (some (.base "bool" none false)) none)
      | none => .ok (.mk .nullv [] (some .nullT) none)
    | .name s =>
      if s == "self" then .ok (.mk (.str "address") [] (some (.base "address" none false)) none)
      else if s == "true" then .ok (.mk (.num 1) [] (some (.base "bool" none false)) none)
      else if s == "false" then .ok (.mk (.num 0) [] (some (.base "bool" none false)) none)
      else if s == "null" then .ok (.mk .nullv [] (some .nullT) none)
      else
        match assoc_lookup ctx.args s with
        | some (dataloc, typ) =>
          let data_decl : LNode :=
            if 0 ≤ dataloc then Lx "calldataload" [Ln dataloc]
            else Lx "seq" [Lx "codecopy" [Ln 192, Lx "sub" [Lx "codesize" [], Ln (-dataloc)], Ln 32],
                   Lx "mload" [Ln 192]]
          if is_base_ty typ ["num"] then
            .ok (.mk (.str "clamp") [Lx "mload" [Ln (MINNUM_POS : Int)], data_decl,
                  Lx "mload" [Ln (MAXNUM_POS : Int)]] (some typ) none)
          else if is_base_ty typ ["bool"] then
            .ok (.mk (.str "uclamplt") [data_decl, Ln 2] (some typ) none)
          else if is_base_ty typ ["address"] then
            .ok (.mk (.str "uclamplt") [data_decl, Lx "mload" [Ln (ADDRSIZE_POS : Int)]] (some typ) none)
          else if is_base_ty typ ["num256", "signed256", "bytes32"] then
            .ok (.mk data_decl.value data_decl.args (some typ) none)
          else
            match typ with
            | .bytearray _ => .ok (.mk data_decl.value data_decl.args (some typ) (some .calldata))
            | _ => .error .invalidType
        | none =>
          match assoc_lookup ctx.vars s with
          | some (dataloc, typ) => .ok (.mk (.num (dataloc : Int)) [] (some typ) (some .memory))
          | none => .error .variableDecl
    | .attribute value attr =>
      if attr == "balance" then
        match parseExpr f ctx value with
        | .error e => .error e
        | .ok a0 =>
          let addr := unwrap_location a0
          if !(is_base_typeO addr.typ ["address"]) then .error .typeMismatch
          else .ok (.mk (.str "balance") [addr] (some (.base "num" (some [("wei", 1)]) false)) none)
      else if (match value with | .name vid => vid == "self" | _ => false) then
        match assoc_lookup ctx.globals attr with
        | none => .error .variableDecl
        | some (pos, typ) => .ok (.mk (.num (pos : Int)) [] (some typ) (some .storage))
      else if (match value with
          | .name vid => vid == "msg" || vid == "block" || vid == "tx"
          | _ => false) then
        let vid := match value with | .name vid => vid | _ => ""
        let key := vid ++ "." ++ attr
        if key == "msg.sender" then
          .ok (.mk (.str "caller") [] (some (.base "address" none false)) none)
        else if key == "msg.value" then
          .ok (.mk (.str "callvalue") [] (some (.base "num" (some [("wei", 1)]) false)) none)
        else if key == "block.difficulty" then
          .ok (.mk (.str "difficulty") [] (some (.base "num" none false)) none)
        else if key == "block.timestamp" then
          .ok (.mk (.str "timestamp") [] (some (.base "num" (some [("sec", 1)]) true)) none)
        else if key == "block.coinbase" then
          .ok (.mk (.str "coinbase") [] (some (.base "address" none false)) none)
        else if key == "block.number" then
          .ok (.mk (.str "number") [] (some (.base "num" none false)) none)
        else if key == "tx.origin" then
          .ok (.mk (.str "origin") [] (some (.base "address" none false)) none)
        else .error .otherE
      else
        match parseExpr f ctx value with
        | .error e => .error e
        | .ok sub0 =>
          if sub0.location.isNone then .error .otherE
          else
            match sub0.typ with
            | some (.struct ms) =>
              if (sorted_keys ms).contains attr then add_variable_offset f sub0 (.strK attr)
              else .error .typeMismatch
            | _ => .error .typeMismatch
    | .subscript value slice =>
      match parseExpr f ctx value with
      | .error e => .error e
      | .ok sub0 =>
        if sub0.location.isNone then .error .otherE
        else
          match parseExpr f ctx slice with
          | .error e => .error e
          | .ok idx0 => add_variable_offset f sub0 (.nodeK (unwrap_location idx0))
    | .binop op l r =>
      match parseExpr f ctx l with
      | .error e => .error e
      | .ok ln0 =>
        match parseExpr f ctx r with
        | .error e => .error e
        | .ok rn0 =>
          match parseArith op (unwrap_location ln0) (unwrap_location rn0) with
          | .error e => .error e
          | .ok o => .ok (clamp_epilogue o)
    | .call fn args =>
      if fn == "floor" then
        match args with
        | [a0] =>
          match parseExpr f ctx a0 with
          | .error e => .error e
          | .ok s0 =>
            let sub := unwrap_location s0
            if is_base_typeO sub.typ ["num", "num256", "signed256"] then .ok sub
            else
              match sub.typ with
              | some (.base bk u p) =>
                if bk == "decimal" then
                  .ok (.mk (.str "sdiv") [sub, Ln DECIMAL_DIVISOR] (some (.base "num" u p)) none)
                else .error .typeMismatch
              | _ => .error .typeMismatch
        | _ => .error .structureE
      else if fn == "decimal" then
        match args with
        | [a0] =>
          match parseExpr f ctx a0 with
          | .error e => .error e
          | .ok s0 =>
            let sub := unwrap_location s0
            if is_base_typeO sub.typ ["decimal"] then .ok sub
            else
              match sub.typ with
              | some (.base bk u p) =>
                if bk == "num" then
                  .ok (.mk (.str "mul") [sub, Ln DECIMAL_DIVISOR] (some (.base "decimal" u p)) none)
                else .error .typeMismatch
              | _ => .error .typeMismatch
        | _ => .error .structureE
      else if fn == "as_number" then
        match args with
        | a0 :: _ =>
          match parseExpr f ctx a0 with
          | .error e => .error e
          | .ok s0 =>
            let sub := unwrap_location s0
            match sub.typ with
            | some (.base bk _ _) =>
              if bk == "num" || bk == "decimal" then
                .ok (.mk sub.value sub.args (some (.base bk (some []) false)) none)
              else .error .typeMismatch
            | _ => .error .typeMismatch
        | [] => .error .otherE
      else .error .otherE

/-- The VM word modulus 2^256 (the spec fixes a 256-bit word size). -/
def WORDM : Int := 2 ^ 256

/-- The signed/unsigned boundary 2^255. -/
def HALFM : Int := 2 ^ 255

/-- Canonical word representative in [0, 2^256) of an integer (two's
complement encoding). -/
def toWord (n : Int) : Int := n % WORDM

/-- Signed reading of a word (two's complement decoding). -/
def fromWord (w : Int) : Int := if w < HALFM then w else w - WORDM

/-- Word-level evaluator for the fragment of emitted LIR the claims
evaluate: integer literals, mload over a memory valuation, mul (mod 2^256),
sdiv (two's complement, truncating toward zero, x/0 = 0), the unsigned
comparison lt, and iszero.  These are the VM opcode semantics the spec
fixes (256-bit words; lt unsigned - the translator uses slt/sgt for
signed source comparisons). -/
def evalL (mem : Int → Int) : Nat → LNode → Option Int
  | 0, _ => none
  | f + 1, .mk v args _ _ =>
    match v with
    | .num n => some (toWord n)
    | .nullv => none
    | .str s =>
      if s == "mload" then
        match args with
        | [a] =>
          match evalL mem f a with
          | some x => some (mem x)
          | none => none
        | _ => none
      else if s == "mul" then
        match args with
        | [a, b] =>
          match evalL mem f a, evalL mem f b with
          | some x, some y => some ((x * y) % WORDM)
          | _, _ => none
        | _ => none
      else if s == "sdiv" then
        match args with
        | [a, b] =>
          match evalL mem f a, evalL mem f b with
          | some x, some y => some (toWord (Int.tdiv (fromWord x) (fromWord y)))
          | _, _ => none
        | _ => none
      else if s == "lt" then
        match args with
        | [a, b] =>
          match evalL mem f a, evalL mem f b with
          | some x, some y => some (if x < y then 1 else 0)
          | _, _ => none
        | _ => none
      else if s == "iszero" then
        match args with
        | [a] =>
          match evalL mem f a with
          | some x => some (if x == 0 then 1 else 0)
          | none => none
        | _ => none
      else none

/-- One list-element copy of make_setter's literal (multi) case. -/
def setter_list_item (rec : LNode → LNode → Option Loc → Except Err LNode)
    (avof : Nat) (left_token : LNode) (rargs : List LNode) (loc : Option Loc)
    (i : Nat) : Except Err LNode :=
  match add_variable_offset avof left_token
      (.nodeK (.mk (.num (Int.ofNat i)) [] (some (.base "num" none false)) none)) with
  | .error e => .error e
  | .ok l2 =>
    match rargs[i]? with
    | some ri => rec l2 ri loc
    | none => .error .otherE

/-- One list-element zero fill of make_setter's null case. -/
def setter_list_null_item (rec : LNode → LNode → Option Loc → Except Err LNode)
    (avof : Nat) (left_token : LNode) (loc : Option Loc) (i : Nat) : Except Err LNode :=
  match add_variable_offset avof left_token
      (.nodeK (.mk (.num (Int.ofNat i)) [] (some (.base "num" none false)) none)) with
  | .error e => .error e
  | .ok l2 => rec l2 (.mk .nullv [] (some .nullT) none) loc

/-- One list-element copy of make_setter's variable case. -/
def setter_list_var_item (rec : LNode → LNode → Option Loc → Except Err LNode)
    (avof : Nat) (left_token right_token : LNode) (loc : Option Loc)
    (i : Nat) : Except Err LNode :=
  match add_variable_offset avof left_token
      (.nodeK (.mk (.num (Int.ofNat i)) [] (some (.base "num" none false)) none)) with
  | .error e => .error e
  | .ok l2 =>
    match add_variable_offset avof right_token
        (.nodeK (.mk (.num (Int.ofNat i)) [] (some (.base "num" none false)) none)) with
    | .error e => .error e
    | .ok r2 => rec l2 r2 loc

/-- One struct-member copy of make_setter's literal (multi) case. -/
def setter_struct_item (rec : LNode → LNode → Option Loc → Except Err LNode)
    (avof : Nat) (left_token : LNode) (rargs : List LNode) (loc : Option Loc)
    (p : Nat × String) : Except Err LNode :=
  match add_variable_offset avof left_token (.strK p.2) with
  | .error e => .error e
  | .ok l2 =>
    match rargs[p.1]? with
    | some ri => rec l2 ri loc
    | none => .error .otherE

/-- One struct-member zero fill of make_setter's null case. -/
def setter_struct_null_item (rec : LNode → LNode → Option Loc → Except Err LNode)
    (avof : Nat) (left_token : LNode) (loc : Option Loc) (k : String) : Except Err LNode :=
  match add_variable_offset avof left_token (.strK k) with
  | .error e => .error e
  | .ok l2 => rec l2 (.mk .nullv [] (some .nullT) none) loc

/-- One struct-member copy of make_setter's variable case. -/
def setter_struct_var_item (rec : LNode → LNode → Option Loc → Except Err LNode)
    (avof : Nat) (left_token right_token : LNode) (loc : Option Loc)
    (k : String) : Except Err LNode :=
  match add_variable_offset avof left_token (.strK k) with
  | .error e => .error e
  | .ok l2 =>
    match add_variable_offset avof right_token (.strK k) with
    | .error e => .error e
    | .ok r2 => rec l2 r2 loc

/-- The subs-collecting pattern of make_setter: run the per-element
translations, propagate the first error, and build the wrapping node. -/
def mapE_wrap (F : α → Except Err LNode) (l : List α) (build : List LNode → LNode) :
    Except Err LNode :=
  match mapE F l with
  | .error e => .error e
  | .ok subs => .ok (build subs)

/-- Embedding of make_setter (parser.py lines 732-811).  Fuel is
structural bookkeeping; leaving the function without a return (base
target in a location other than storage/memory, or an unhandled target
type) yields Python None and a downstream crash, modelled as otherE. -/
def makeSetter : Nat → LNode → LNode → Option Loc → Except Err LNode
  | 0, _, _, _ => .error .otherE
  | f + 1, left, right, location =>
    match left.typ with
    | some (.base bk bu bp) =>
      match base_type_conversion right right.typ (.base bk bu bp) with
      | .error e => .error e
      | .ok r2 =>
        match location with
        | some .storage => .ok (.mk (.str "sstore") [left, r2] none none)
        | some .memory => .ok (.mk (.str "mstore") [left, r2] none none)
        | _ => .error .otherE
    | some (.mapping _ _) => .error .typeMismatch
    | some (.list subty cnt) =>
      if left.value == LVal.str "multi" then .error .otherE
      else if !(match right.typ with
          | some (.list _ _) => true
          | some .nullT => true
          | _ => false) then .error .typeMismatch
      else if !(match right.typ with
          | some (.list _ rcnt) => cnt == rcnt
          | _ => true) then .error .typeMismatch
      else
        let left_token := LNode.mk (.str "_L") [] left.typ left.location
        if right.value == LVal.str "multi" then
          if right.args.length != cnt then .error .typeMismatch
          else
            mapE_wrap (setter_list_item (makeSetter f) f left_token right.args location)
              (List.range cnt)
              (fun subs => .mk (.str "with") [Ls "_L", left, .mk (.str "seq") subs none none] none none)
        else
          match right.typ with
          | some .nullT =>
            mapE_wrap (setter_list_null_item (makeSetter f) f left_token location)
              (List.range cnt)
              (fun subs => .mk (.str "with") [Ls "_L", left, .mk (.str "seq") subs none none] none none)
          | _ =>
            let right_token := LNode.mk (.str "_R") [] right.typ right.location
            mapE_wrap (setter_list_var_item (makeSetter f) f left_token right_token location)
              (List.range cnt)
              (fun subs => .mk (.str "with") [Ls "_L", left,
                .mk (.str "with") [Ls "_R", right, .mk (.str "seq") subs none none] none none]
                none none)
    | some (.struct ms) =>
      if left.value == LVal.str "multi" then .error .otherE
      else if !(match right.typ with
          | some (.struct _) => true
          | some .nullT => true
          | _ => false) then .error .typeMismatch
      else if !(match right.typ with
          | some (.struct rms) => sorted_keys ms == sorted_keys rms
          | _ => true) then .error .typeMismatch
      else
        let left_token := LNode.mk (.str "_L") [] left.typ left.location
        if right.value == LVal.str "multi" then
          if right.args.length != ms.length then .error .typeMismatch
          else
            mapE_wrap (setter_struct_item (makeSetter f) f left_token right.args location)
              (sorted_keys ms).enum
              (fun subs => .mk (.str "with") [Ls "_L", left, .mk (.str "seq") subs none none] none none)
        else
          match right.typ with
          | some .nullT =>
            mapE_wrap (setter_struct_null_item (makeSetter f) f left_token location)
              (sorted_keys ms)
              (fun subs => .mk (.str "with") [Ls "_L", left, .mk (.str "seq") subs none none] none none)
          | _ =>
            let right_token := LNode.mk (.str "_R") [] right.typ right.location
            mapE_wrap (setter_struct_var_item (makeSetter f) f left_token right_token location)
              (sorted_keys ms)
              (fun subs => .mk (.str "with") [Ls "_L", left,
                .mk (.str "with") [Ls "_R", right, .mk (.str "seq") subs none none] none none]
                none none)
    | _ => .error .otherE

/-- Source-statement AST shapes consumed by parse_stmt that the claims
exercise; For/AugAssign are not needed by any claim.  An AnnAssign
carries its annotation already parsed to a type (parse_type lives in the
missing types.py). -/
inductive Stmt where
  | passS
  | annAssign (target : String) (annTy : Ty)
  | assign (target : Expr) (value : Expr)
  | ifS (test : Expr) (body : List Stmt) (orelse : List Stmt)
  | callS (func : String) (args : List Expr)
  | assertS (test : Expr)
  | breakS
  | returnS (value : Option Expr)

/-- Sequencing of statement translations with the mutable Context
threaded through, as parse_body does. -/
def stmts_fold (f : Ctx → Stmt → Except Err (LNode × Ctx)) :
    Ctx → List Stmt → Except Err (List LNode × Ctx)
  | ctx, [] => .ok ([], ctx)
  | ctx, s :: rest =>
    match f ctx s with
    | .error e => .error e
    | .ok (n, ctx2) =>
      match stmts_fold f ctx2 rest with
      | .error e => .error e
      | .ok (ns, ctx3) => .ok (n :: ns, ctx3)

/-- Embedding of parse_stmt (parser.py lines 814-983) over the Stmt
shapes above, with parse_body (lines 323-329) inlined for statement
lists.  The Context is threaded in place of Python's in-place mutation.
Fuel is structural bookkeeping only. -/
def parseStmt (valid : String → Bool) : Nat → Ctx → Stmt → Except Err (LNode × Ctx)
  | 0, _, _ => .error .otherE
  | f + 1, ctx, stmt =>
    match stmt with
    | .passS => .ok (.mk (.str "pass") [] none none, ctx)
    | .annAssign target annTy =>
      match new_variable valid f ctx target annTy with
      | .error e => .error e
      | .ok (_, ctx2) => .ok (.mk (.str "pass") [] none none, ctx2)
    | .assign target value =>
      match parseExpr f ctx value with
      | .error e => .error e
      | .ok sub =>
        match target, (match target with
            | .name nid => (assoc_lookup ctx.vars nid).isNone
            | _ => false) with
        | .name nid, true =>
          match sub.typ with
          | none => .error .otherE
          | some st =>
            match new_variable valid f ctx nid (set_default_units st) with
            | .error e => .error e
            | .ok (pos, ctx2) =>
              match makeSetter f (.mk (.num (Int.ofNat pos)) [] (some st) (some .memory))
                  sub (some .memory) with
              | .error e => .error e
              | .ok res => .ok (res, ctx2)
        | _, _ =>
          match parseExpr f ctx target with
          | .error e => .error e
          | .ok tgt =>
            if tgt.location.isNone then .error .otherE
            else if tgt.location == some Loc.storage && ctx.is_constant then .error .constancy
            else
              match makeSetter f tgt sub tgt.location with
              | .error e => .error e
              | .ok res => .ok (res, ctx)
    | .ifS test body orelse =>
      match parseExpr f ctx test with
      | .error e => .error e
      | .ok t0 =>
        let tn := unwrap_location t0
        match stmts_fold (parseStmt valid f) ctx body with
        | .error e => .error e
        | .ok (bs, ctx1) =>
          match orelse with
          | [] => .ok (.mk (.str "if") [tn, .mk (.str "seq") bs none none] none none, ctx1)
          | e1 :: _ =>
            match parseStmt valid f ctx1 e1 with
            | .error e => .error e
            | .ok (en, ctx2) =>
              .ok (.mk (.str "if") [tn, .mk (.str "seq") bs none none, en] none none, ctx2)
    | .callS fn args =>
      if fn == "send" then
        if ctx.is_constant then .error .constancy
        else
          match args with
          | [a1, a2] =>
            match parseExpr f ctx a1 with
            | .error e => .error e
            | .ok to0 =>
              let toN := unwrap_location to0
              if !(is_base_typeO toN.typ ["address"]) then .error .typeMismatch
              else
                match parseExpr f ctx a2 with
                | .error e => .error e
                | .ok v0 =>
                  let vN := unwrap_location v0
                  if !(is_base_typeO vN.typ ["num", "num256"]) then .error .typeMismatch
                  else .ok (.mk (.str "pop")
                    [Lx "call" [Ln 0, toN, vN, Ln 0, Ln 0, Ln 0, Ln 0]] none none, ctx)
          | _ => .error .otherE
      else if fn == "suicide" || fn == "selfdestruct" then
        if args.length != 1 then .error .otherE
        else if ctx.is_constant then .error .constancy
        else
          match args with
          | [a1] =>
            match parseExpr f ctx a1 with
            | .error e => .error e
            | .ok s0 =>
              let sN := unwrap_location s0
              if !(is_base_typeO sN.typ ["address"]) then .error .typeMismatch
              else .ok (.mk (.str "selfdestruct") [sN] none none, ctx)
          | _ => .error .otherE
      else .error .otherE
    | .assertS test =>
      match parseExpr f ctx test with
      | .error e => .error e
      | .ok t0 => .ok (.mk (.str "assert") [unwrap_location t0] none none, ctx)
    | .breakS => .ok (.mk (.str "break") [] none none, ctx)
    | .returnS v =>
      match ctx.return_type with
      | none =>
        match v with
        | some _ => .error .typeMismatch
        | none => .ok (.mk (.str "return") [Ln 0, Ln 0] none none, ctx)
      | some rt =>
        match v with
        | none => .error .typeMismatch
        | some ve =>
          match parseExpr f ctx ve with
          | .error e => .error e
          | .ok sub0 =>
            match sub0.typ with
            | some (.base sk su sp) =>
              match rt with
              | .base rk ruu rpp =>
                let sub := unwrap_location sub0
                if !(are_units_compatible su ruu) then .error .typeMismatch
                else if sk == rk || (sk == "num" && rk == "signed256") then
                  .ok (.mk (.str "seq") [Lx "mstore" [Ln 0, sub], Lx "return" [Ln 0, Ln 32]]
                    none none, ctx)
                else if sk == "num" && rk == "num256" then
                  .ok (.mk (.str "seq") [Lx "mstore" [Ln 0, sub],
                        Lx "assert" [Lx "iszero" [Lx "lt" [Lx "mload" [Ln 0], Ln 0]]],
                        Lx "return" [Ln 0, Ln 32]] none none, ctx)
                else .error .typeMismatch
              | _ => .error .typeMismatch
            | some (.bytearray ml) =>
              match rt with
              | .bytearray rml =>
                if ml > rml then .error .typeMismatch
                else
                  match sub0.location with
                  | some .calldata =>
                    .ok (.mk (.str "with") [Ls "_pos", Lx "add" [Ln 4, sub0],
                          Lx "with" [Ls "_len",
                            Lx "ceil32" [Lx "add" [Lx "calldataload" [Ls "_pos"], Ln 32]],
                            Lx "seq" [Lx "assert" [Lx "lt" [Ls "_len", Ln (ml : Int)]],
                              Lx "mstore" [Ln (ctx.next_mem : Int), Ln 32],
                              Lx "calldatacopy" [Ln ((ctx.next_mem : Int) + 32), Ls "_pos", Ls "_len"],
                              Lx "return" [Ln (ctx.next_mem : Int), Lx "add" [Ls "_len", Ln 32]]]]]
                          none none, ctx)
                  | some .memory =>
                    .ok (.mk (.str "with") [Ls "_loc", sub0,
                          Lx "seq" [Lx "mstore" [Lx "sub" [Ls "_loc", Ln 32], Ln 32],
                            Lx "return" [Lx "sub" [Ls "_loc", Ln 32],
                              Lx "add" [Lx "mload" [sub0], Ln 32]]]] none none, ctx)
                  | _ => .error .otherE
              | _ => .error .typeMismatch
            | _ => .error .typeMismatch

/-- Embedding of parse_body on a statement list (parser.py lines 323-329):
a seq of the statement translations. -/
def parse_body (valid : String → Bool) (fuel : Nat) (ctx : Ctx) (stmts : List Stmt) :
    Except Err (LNode × Ctx) :=
  match stmts_fold (parseStmt valid fuel) ctx stmts with
  | .error e => .error e
  | .ok (ns, ctx2) => .ok (.mk (.str "seq") ns none none, ctx2)

set_option maxRecDepth 4000

/-- Word multiplication of canonical representatives. -/
theorem toWord_mul_word (a b : Int) : (toWord a * toWord b) % WORDM = toWord (a * b) := by
  unfold toWord
  exact (Int.mul_emod a b WORDM).symm

/-- Decoding after encoding is the identity on the signed word range. -/
theorem fromWord_toWord_eq (x : Int) (h1 : -HALFM ≤ x) (h2 : x < HALFM) :
    fromWord (toWord x) = x := by
  unfold fromWord toWord WORDM HALFM at *
  split <;> omega

/-- Scaling an in-range num literal by 10^10 stays in the signed word
range. -/
theorem scaled_lit_in_range (n : Int) (h1 : -(2 : Int) ^ 127 + 1 ≤ n) (h2 : n ≤ 2 ^ 127 - 1) :
    -HALFM ≤ n * DECIMAL_DIVISOR ∧ n * DECIMAL_DIVISOR < HALFM := by
  unfold HALFM DECIMAL_DIVISOR
  have hD : (0 : Int) ≤ 10000000000 := by norm_num
  have hml := mul_le_mul_of_nonneg_right h1 hD
  have hmr := mul_le_mul_of_nonneg_right h2 hD
  constructor
  · nlinarith
  · nlinarith

/-- The node parse_expr builds for an in-range integer literal. -/
def litC (n : Int) : LNode := .mk (.num n) [] (some (.base "num" none false)) none

/-- Integer literals parse to the literal node typed num (parser.py
386-390). -/
theorem parse_num_lit (ctx : Ctx) (n : Int) (m : Nat)
    (h1 : -(2 : Int) ^ 127 + 1 ≤ n) (h2 : n ≤ 2 ^ 127 - 1) :
    parseExpr (m + 1) ctx (.num n) = .ok (litC n) := by
  simp only [parseExpr, litC]
  rw [if_pos ⟨h1, h2⟩]

/-- The decimal(x) coercion on a locationless num value multiplies by
10^10 and retypes to decimal (parser.py 640-649). -/
theorem parse_decimal_of_num (ctx : Ctx) (m : Nat) (e : Expr) (nd : LNode)
    (u : Option UnitMap) (p : Bool)
    (hsub : parseExpr m ctx e = .ok nd)
    (hloc : nd.location = none)
    (htyp : nd.typ = some (.base "num" u p)) :
    parseExpr (m + 1) ctx (.call "decimal" [e]) =
      .ok (.mk (.str "mul") [nd, Ln DECIMAL_DIVISOR] (some (.base "decimal" u p)) none) := by
  simp only [parseExpr,
    show (("decimal" : String) == "floor") = false from rfl,
    show (("decimal" : String) == "decimal") = true from rfl,
    Bool.false_eq_true, if_false, if_true, hsub]
  simp only [unwrap_location, hloc, is_base_typeO, is_base_ty, htyp, List.contains,
    show (("num" : String) == "decimal") = false from rfl,
    show (("num" : String) == "num") = true from rfl,
    List.elem, Bool.false_eq_true, if_false, if_true]

/-- The floor(x) coercion on a locationless decimal value sdiv-s by
10^10 and retypes to num (parser.py 630-639). -/
theorem parse_floor_of_decimal (ctx : Ctx) (m : Nat) (e : Expr) (nd : LNode)
    (u : Option UnitMap) (p : Bool)
    (hsub : parseExpr m ctx e = .ok nd)
    (hloc : nd.location = none)
    (htyp : nd.typ = some (.base "decimal" u p)) :
    parseExpr (m + 1) ctx (.call "floor" [e]) =
      .ok (.mk (.str "sdiv") [nd, Ln DECIMAL_DIVISOR] (some (.base "num" u p)) none) := by
  simp only [parseExpr,
    show (("floor" : String) == "floor") = true from rfl,
    if_true, hsub]
  simp only [unwrap_location, hloc, is_base_typeO, is_base_ty, htyp, List.contains,
    show (("decimal" : String) == "num") = false from rfl,
    show (("decimal" : String) == "num256") = false from rfl,
    show (("decimal" : String) == "signed256") = false from rfl,
    show (("decimal" : String) == "decimal") = true from rfl,
    List.elem, Bool.false_eq_true, if_false, if_true]

/-- C10: the LIR emitted for floor(decimal(n)) evaluates, in the VM's
256-bit word semantics, to the same word as the LIR emitted for the
literal n itself, for every integer literal in the accepted range:
decimal multiplies by 10^10 and floor sdiv-s by 10^10, an exact round
trip (parser.py 386-390, 630-649). -/
theorem C10_floor_decimal_roundtrip (n : Int)
    (h1 : -(2 : Int) ^ 127 + 1 ≤ n) (h2 : n ≤ 2 ^ 127 - 1)
    (f : Nat) (ctx : Ctx) (mem : Int → Int) :
    ∃ nd ld,
      parseExpr (f + 3) ctx (.call "floor" [.call "decimal" [.num n]]) = .ok nd ∧
      parseExpr (f + 1) ctx (.num n) = .ok ld ∧
      evalL mem 4 nd = evalL mem 4 ld ∧
      evalL mem 4 ld = some (toWord n) := by
  have hlit := parse_num_lit ctx n f h1 h2
  have hdec := parse_decimal_of_num ctx (f + 1) (.num n) (litC n) none false hlit rfl rfl
  have hfloor := parse_floor_of_decimal ctx (f + 1 + 1) (.call "decimal" [.num n])
    (.mk (.str "mul") [litC n, Ln DECIMAL_DIVISOR] (some (.base "decimal" none false)) none)
    none false hdec rfl rfl
  refine ⟨_, litC n, hfloor, parse_num_lit ctx n f h1 h2, ?_, ?_⟩
  · have hb := scaled_lit_in_range n h1 h2
    simp only [evalL, litC, Ln,
      show (("sdiv" : String) == "mload") = false from rfl,
      show (("sdiv" : String) == "mul") = false from rfl,
      show (("sdiv" : String) == "sdiv") = true from rfl,
      show (("mul" : String) == "mload") = false from rfl,
      show (("mul" : String) == "mul") = true from rfl,
      Bool.false_eq_true, if_false, if_true]
    rw [toWord_mul_word]
    rw [fromWord_toWord_eq (n * DECIMAL_DIVISOR) hb.1 hb.2]
    rw [fromWord_toWord_eq DECIMAL_DIVISOR
      (by unfold HALFM DECIMAL_DIVISOR; norm_num) (by unfold HALFM DECIMAL_DIVISOR; norm_num)]
    rw [Int.mul_tdiv_cancel n (by unfold DECIMAL_DIVISOR; norm_num)]
  · simp only [evalL, litC]

def ctxC10 : Ctx := Ctx.mk [] [] [] none false 256

/-- Witness for C10 at the literal 7. -/
theorem C10_floor_decimal_roundtrip_witness :
    ∃ nd ld,
      parseExpr 3 ctxC10 (.call "floor" [.call "decimal" [.num 7]]) = .ok nd ∧
      parseExpr 1 ctxC10 (.num 7) = .ok ld ∧
      evalL (fun _ => 0) 4 nd = evalL (fun _ => 0) 4 ld ∧
      evalL (fun _ => 0) 4 ld = some (toWord 7) :=
  C10_floor_decimal_roundtrip 7 (by norm_num) (by norm_num) 0 ctxC10 (fun _ => 0)

/-- parseArith raises only type mismatches, never a constancy violation. -/
theorem parseArith_no_constancy (op : BOp) (left right : LNode) :
    parseArith op left right ≠ .error .constancy := by
  intro h
  unfold parseArith at h
  repeat' split at h
  all_goals simp_all

/-- base_type_conversion never raises a constancy violation. -/
theorem btc_no_constancy (o : LNode) (ft : Option Ty) (t : Ty) :
    base_type_conversion o ft t ≠ .error .constancy := by
  intro h
  unfold base_type_conversion at h
  repeat' split at h
  all_goals simp_all

/-- add_variable_offset never raises a constancy violation. -/
theorem avo_no_constancy (szf : Nat) (p : LNode) (k : AKey) :
    add_variable_offset szf p k ≠ .error .constancy := by
  intro h
  unfold add_variable_offset at h
  repeat' split at h
  all_goals (try (dsimp only at h))
  repeat' split at h
  all_goals simp_all [btc_no_constancy]

/-- mapE cannot produce an error its element function never produces. -/
theorem mapE_no_err (f : α → Except Err β) (bad : Err)
    (hf : ∀ a, f a ≠ .error bad) : ∀ l, mapE f l ≠ .error bad := by
  intro l
  induction l with
  | nil => simp [mapE]
  | cons a rest ih =>
    intro h
    simp only [mapE] at h
    split at h
    · rename_i e heq
      cases h
      exact hf a heq
    · split at h
      · rename_i e heq
        cases h
        exact ih heq
      · simp at h

/-- mapE_wrap cannot produce an error its element function never
produces. -/
theorem mapE_wrap_no_err (F : α → Except Err LNode) (l : List α)
    (build : List LNode → LNode) (bad : Err)
    (hf : ∀ a, F a ≠ .error bad) : mapE_wrap F l build ≠ .error bad := by
  intro h
  unfold mapE_wrap at h
  split at h
  · rename_i e heq
    cases h
    exact mapE_no_err F bad hf l heq
  · simp at h

/-- new_variable never raises a constancy violation. -/
theorem new_variable_no_constancy (valid : String → Bool) (szf : Nat) (ctx : Ctx)
    (name : String) (typ : Ty) :
    new_variable valid szf ctx name typ ≠ .error .constancy := by
  intro h
  unfold new_variable at h
  repeat' split at h
  all_goals simp_all

/-- make_setter never raises a constancy violation (the constancy check
lives in parse_stmt, before make_setter runs). -/
theorem makeSetter_no_constancy :
    ∀ (f : Nat) (left right : LNode) (loc : Option Loc),
      makeSetter f left right loc ≠ .error .constancy := by
  intro f
  induction f with
  | zero => intro left right loc h; simp [makeSetter] at h
  | succ f ih =>
    have hitem1 : ∀ avof lt rargs loc2 i,
        setter_list_item (makeSetter f) avof lt rargs loc2 i ≠ .error .constancy := by
      intro avof lt rargs loc2 i hx
      unfold setter_list_item at hx
      repeat' split at hx
      all_goals simp_all [avo_no_constancy, ih]
    have hitem2 : ∀ avof lt loc2 i,
        setter_list_null_item (makeSetter f) avof lt loc2 i ≠ .error .constancy := by
      intro avof lt loc2 i hx
      unfold setter_list_null_item at hx
      repeat' split at hx
      all_goals simp_all [avo_no_constancy, ih]
    have hitem3 : ∀ avof lt rt loc2 i,
        setter_list_var_item (makeSetter f) avof lt rt loc2 i ≠ .error .constancy := by
      intro avof lt rt loc2 i hx
      unfold setter_list_var_item at hx
      repeat' split at hx
      all_goals simp_all [avo_no_constancy, ih]
    have hitem4 : ∀ avof lt rargs loc2 (p : Nat × String),
        setter_struct_item (makeSetter f) avof lt rargs loc2 p ≠ .error .constancy := by
      intro avof lt rargs loc2 pp hx
      unfold setter_struct_item at hx
      repeat' split at hx
      all_goals simp_all [avo_no_constancy, ih]
    have hitem5 : ∀ avof lt loc2 k,
        setter_struct_null_item (makeSetter f) avof lt loc2 k ≠ .error .constancy := by
      intro avof lt loc2 k hx
      unfold setter_struct_null_item at hx
      repeat' split at hx
      all_goals simp_all [avo_no_constancy, ih]
    have hitem6 : ∀ avof lt rt loc2 k,
        setter_struct_var_item (makeSetter f) avof lt rt loc2 k ≠ .error .constancy := by
      intro avof lt rt loc2 k hx
      unfold setter_struct_var_item at hx
      repeat' split at hx
      all_goals simp_all [avo_no_constancy, ih]
    intro left right loc h
    unfold makeSetter at h
    repeat' split at h
    all_goals (try (dsimp only at h))
    repeat' split at h
    all_goals (try simp_all)
    all_goals
      first
      | exact btc_no_constancy _ _ _ (by assumption)
      | exact avo_no_constancy _ _ _ (by assumption)
      | (refine mapE_wrap_no_err _ _ _ .constancy ?_ h
         first
         | exact fun a => hitem1 _ _ _ _ a
         | exact fun a => hitem2 _ _ _ a
         | exact fun a => hitem3 _ _ _ _ a
         | exact fun a => hitem4 _ _ _ _ a.1 a.2
         | exact fun a => hitem5 _ _ _ a
         | exact fun a => hitem6 _ _ _ _ a)

/-- parse_expr never raises a constancy violation: expressions are
read-only, and the constancy checks live in parse_stmt. -/
theorem parseExpr_no_constancy :
    ∀ (f : Nat) (ctx : Ctx) (ex : Expr), parseExpr f ctx ex ≠ .error .constancy := by
  intro f
  induction f with
  | zero => intro ctx ex h; simp [parseExpr] at h
  | succ f ih =>
    intro ctx ex h
    cases ex
    all_goals (simp only [parseExpr] at h)
    all_goals (try (repeat' split at h))
    all_goals (try (dsimp only at h))
    all_goals (try (repeat' split at h))
    all_goals (try simp_all)
    all_goals
      first
      | exact ih _ _ (by assumption)
      | exact avo_no_constancy _ _ _ (by assumption)
      | exact parseArith_no_constancy _ _ _ (by assumption)

/-- A context for a constant function: one storage global x of type num. -/
def ctxConstC : Ctx := Ctx.mk [] [] [("x", 0, .base "num" none false)] none true 256

/-- The same context with is_constant off. -/
def ctxNonConstC : Ctx := Ctx.mk [] [] [("x", 0, .base "num" none false)] none false 256

/-- C6: with is_constant true, parse_stmt raises a constancy violation for
an assignment whose resolved (non-fresh) target lives in storage, for
every send(...) call statement, and for a one-argument selfdestruct(...)
or suicide(...) call statement; with is_constant false, assignments and
call statements never raise a constancy violation. -/
theorem C6_constancy (valid : String → Bool) (f : Nat) (ctx : Ctx) :
    (ctx.is_constant = true →
      ((∀ target value sub tgt,
          parseExpr f ctx value = .ok sub →
          (match target with
            | .name nid => (assoc_lookup ctx.vars nid).isNone
            | _ => false) = false →
          parseExpr f ctx target = .ok tgt →
          tgt.location = some .storage →
          parseStmt valid (f + 1) ctx (.assign target value) = .error .constancy) ∧
        (∀ args, parseStmt valid (f + 1) ctx (.callS "send" args) = .error .constancy) ∧
        (∀ a, parseStmt valid (f + 1) ctx (.callS "selfdestruct" [a]) = .error .constancy ∧
              parseStmt valid (f + 1) ctx (.callS "suicide" [a]) = .error .constancy))) ∧
    (ctx.is_constant = false →
      ∀ target value fn args,
        parseStmt valid (f + 1) ctx (.assign target value) ≠ .error .constancy ∧
        parseStmt valid (f + 1) ctx (.callS fn args) ≠ .error .constancy) := by
  constructor
  · intro hconst
    refine ⟨?_, ?_, ?_⟩
    · intro target value sub tgt hval hfresh htgt hloc
      cases target
      case name nid =>
        simp_all [parseStmt]
        cases hx : assoc_lookup ctx.vars nid
        · rw [hx] at hfresh; simp at hfresh
        · simp
      all_goals simp_all [parseStmt]
    · intro args
      simp [parseStmt, hconst]
    · intro a
      constructor <;> simp [parseStmt, hconst]
  · intro hconst target value fn args
    constructor
    · intro h
      simp only [parseStmt] at h
      repeat' split at h
      all_goals (try (dsimp only at h))
      repeat' split at h
      all_goals (try (cases h))
      all_goals
        first
        | exact parseExpr_no_constancy _ _ _ (by assumption)
        | exact new_variable_no_constancy _ _ _ _ _ (by assumption)
        | exact makeSetter_no_constancy _ _ _ _ (by assumption)
        | simp_all
    · intro h
      simp only [parseStmt] at h
      repeat' split at h
      all_goals (try (cases h))
      all_goals
        first
        | exact parseExpr_no_constancy _ _ _ (by assumption)
        | simp_all

/-- C6 counterexample: a selfdestruct call with two arguments inside a
constant function fails the arity check first (parser.py line 866,
before the constancy check at line 868), so it raises the generic
structural error rather than the constancy violation the claim
promises for every selfdestruct call statement. -/
theorem C6_counterexample :
    parseStmt validC 2 ctxConstC (.callS "selfdestruct" [.num 1, .num 2]) =
      .error .otherE ∧ Err.otherE ≠ Err.constancy :=
  ⟨rfl, by decide⟩

/-- Witness for C6: in the constant context, assigning to the storage
global self.x raises the constancy violation, as do send and one-argument
selfdestruct statements; in the non-constant context send does not. -/
theorem C6_constancy_witness :
    parseStmt validC 2 ctxConstC (.assign (.attribute (.name "self") "x") (.num 5)) =
      .error .constancy ∧
    parseStmt validC 2 ctxConstC (.callS "send" []) = .error .constancy ∧
    parseStmt validC 2 ctxConstC (.callS "selfdestruct" [.num 1]) = .error .constancy ∧
    parseStmt validC 2 ctxNonConstC (.callS "send" [.num 1]) ≠ .error .constancy :=
  ⟨((C6_constancy validC 1 ctxConstC).1 rfl).1 (.attribute (.name "self") "x") (.num 5)
      (.mk (.num 5) [] (some (.base "num" none false)) none)
      (.mk (.num 0) [] (some (.base "num" none false)) (some .storage))
      rfl rfl rfl rfl,
   ((C6_constancy validC 1 ctxConstC).1 rfl).2.1 [],
   (((C6_constancy validC 1 ctxConstC).1 rfl).2.2 (.num 1)).1,
   ((C6_constancy validC 1 ctxNonConstC).2 rfl (.name "y") (.num 0) "send" [.num 1]).2⟩

/-- C5: parse_stmt translates an if statement with a non-empty else
block using only the first statement of the else block (parser.py line
843, stmt.orelse[0]); any further else statements are dropped, so the
translation of if/else is unchanged when they are removed, and on
success the emitted LIR is the three-argument if of the test, the body
seq, and the first else statement only. -/
theorem C5_if_orelse_head (valid : String → Bool) (f : Nat) (ctx : Ctx)
    (test : Expr) (body : List Stmt) (s1 : Stmt) (rest : List Stmt) :
    parseStmt valid (f + 1) ctx (.ifS test body (s1 :: rest)) =
      parseStmt valid (f + 1) ctx (.ifS test body [s1]) ∧
    (∀ t0 bs ctx1 en ctx2,
      parseExpr f ctx test = .ok t0 →
      stmts_fold (parseStmt valid f) ctx body = .ok (bs, ctx1) →
      parseStmt valid f ctx1 s1 = .ok (en, ctx2) →
      parseStmt valid (f + 1) ctx (.ifS test body (s1 :: rest)) =
        .ok (.mk (.str "if") [unwrap_location t0, .mk (.str "seq") bs none none, en]
          none none, ctx2)) := by
  constructor
  · simp only [parseStmt]
  · intro t0 bs ctx1 en ctx2 htest hbody hs1
    simp [parseStmt, htest, hbody, hs1]

/-- Witness for C5: if true: pass else: pass; break is translated as if
the break statement after the else's pass were not there. -/
theorem C5_if_orelse_head_witness :
    parseStmt validC 2 ctxNonConstC
        (.ifS (.nameconst (some true)) [.passS] [.passS, .breakS]) =
      .ok (.mk (.str "if") [.mk (.num 1) [] (some (.base "bool" none false)) none,
            .mk (.str "seq") [.mk (.str "pass") [] none none] none none,
            .mk (.str "pass") [] none none] none none, ctxNonConstC) :=
  (C5_if_orelse_head validC 1 ctxNonConstC (.nameconst (some true)) [.passS]
      .passS [.breakS]).2 _ _ _ _ _ rfl rfl rfl

/-- A context whose declared return type is num256. -/
def ctxN256 : Ctx := Ctx.mk [] [] [] (some (.base "num256" none false)) false 256

/-- A context whose declared return type is signed256. -/
def ctxS256 : Ctx := Ctx.mk [] [] [] (some (.base "signed256" none false)) false 256

/-- The assertion condition parse_stmt emits when a num is returned into
a num256 (parser.py line 954): iszero(lt(mload(0), 0)). -/
def num256_guard_cond : LNode := Lx "iszero" [Lx "lt" [Lx "mload" [Ln 0], Ln 0]]

/-- A memory valuation whose word at offset 0 is the two's-complement
encoding of -1 (the word the emitted mstore(0, -1) leaves there). -/
def memNeg : Int → Int := fun a => if a == 0 then toWord (-1) else 0

/-- C4: returning the num literal -1 into a declared num256 emits
store-assert-return with condition iszero(lt(mload(0), 0)), but lt is
the VM's UNSIGNED comparison, so on the memory holding the stored
two's-complement word of -1 the condition still evaluates to 1 and the
assertion passes even though the returned num, read as a signed value,
is the negative -1; returning the same num into a declared signed256
emits the plain store-and-return with no assertion.  This refutes the
claim that the assertion fails at runtime whenever the returned num is
negative. -/
theorem C4_num256_return_guard :
    parseStmt validC 2 ctxN256 (.returnS (some (.num (-1)))) =
      .ok (.mk (.str "seq") [Lx "mstore" [Ln 0, litC (-1)],
            Lx "assert" [num256_guard_cond],
            Lx "return" [Ln 0, Ln 32]] none none, ctxN256) ∧
    evalL memNeg 5 num256_guard_cond = some 1 ∧
    fromWord (memNeg 0) = -1 ∧
    parseStmt validC 2 ctxS256 (.returnS (some (.num (-1)))) =
      .ok (.mk (.str "seq") [Lx "mstore" [Ln 0, litC (-1)],
            Lx "return" [Ln 0, Ln 32]] none none, ctxS256) :=
  ⟨rfl, rfl, by decide, rfl⟩
